import Mathlib

/-
Verification of the mood / bubble / bloom engine of the interactive scene
in src/script.js.

The engine state consists of the module-level variables
  kissMeterLevel : the mood scalar (JS initial value 0, documented range 0..100),
  bubbleScale    : inflation scale of the bubble (JS initial value 0),
  isBubbleInflating : the hold flag toggled by startInflating / stopInflating.

One pass of gameLoop performs, in source order:
  1. updateSceneColors(kissMeterLevel) observes the entry value
  2. bubble update: if inflating, bubbleScale = min(100, bubbleScale + 0.8);
     else if bubbleScale > 0: if bubbleScale > 10 then popBubble(bubbleScale)
     (kissMeterLevel = min(100, kissMeterLevel + size/10), spawn floor(size/5)
     hearts) and then kissMeterLevel = min(100, kissMeterLevel + 5);
     in either case bubbleScale = 0
  3. kissMeterLevel = max(0, kissMeterLevel - 0.05)
  4. if kissMeterLevel >= 100 then triggerPurpleBloom(); kissMeterLevel = 99
  5. ambient heart spawn with probability 0.05 (no mood effect).

triggerPurpleBloom is guarded by the scene-bloom CSS class: a call while the
class is present returns immediately; otherwise it adds the class, spawns 50
purple hearts, and schedules removal of the class 2000 ms later.  We model the
class plus its pending removal as an optional expiry timestamp.

Mood values are embedded as rationals (0.05 = 1/20, 0.8 = 4/5).
-/

structure MoodColor where
  name : String
  bgDark : String
  light : String
  mid : String
  accent : String
  desc : String
  deriving DecidableEq

def moodBlue : MoodColor :=
  { name := "Blue", bgDark := "#0b1d3d", light := "#ADD8E6", mid := "#4682B4",
    accent := "#BFE7FF", desc := "Muted blue, suggesting numbness and distance." }

def moodRed : MoodColor :=
  { name := "Red", bgDark := "#3d0a0a", light := "#FFA07A", mid := "#FF4500",
    accent := "#FFD6E0", desc := "Fiery red, passionate intensity, and urgency." }

def moodPurple : MoodColor :=
  { name := "Purple", bgDark := "#1a0d33", light := "#E6E6FA", mid := "#8A2BE2",
    accent := "#D8B9FF", desc := "Deep violet and royal purple, intense intimacy." }

def MOOD_COLORS : List MoodColor := [moodBlue, moodRed, moodPurple]

/-- Band lookup of src/script.js lines 240-244: level <= 30 is Blue,
level <= 65 is Red, anything else is Purple. -/
def getCurrentMood (level : ℚ) : MoodColor :=
  if level ≤ 30 then moodBlue
  else if level ≤ 65 then moodRed
  else moodPurple

/-- Number of burst hearts spawned by popBubble: Math.floor(size / 5),
with the spawning for-loop running zero times on a negative count. -/
def popSpawn (size : ℚ) : ℕ := (⌊size / 5⌋).toNat

/-- popBubble (src/script.js lines 361-378): returns the mood after the
proportional boost min(100, kiss + size/10) together with the number of
burst hearts spawned. -/
def popBubble (kiss size : ℚ) : ℚ × ℕ := (min 100 (kiss + size / 10), popSpawn size)

structure ScnState where
  kissMeterLevel : ℚ
  bubbleScale : ℚ
  isBubbleInflating : Bool
  deriving DecidableEq

/-- Initial module state: kissMeterLevel = 0, bubbleScale = 0, not inflating. -/
def initState : ScnState := { kissMeterLevel := 0, bubbleScale := 0, isBubbleInflating := false }

/-- Everything one pass of gameLoop exposes to observers: the value handed to
updateSceneColors in step 1, the burst hearts and the mood increment of the
pop branch of step 2, the value compared against 100 in step 4, whether that
comparison succeeds, and the full list of values assigned to kissMeterLevel
during the pass, in assignment order. -/
structure TickObs where
  colorLevel : ℚ
  popParticles : ℕ
  popDelta : ℚ
  bloomCheckLevel : ℚ
  bloomFired : Bool
  moodWrites : List ℚ
  deriving DecidableEq

/-- Step 2 of gameLoop (lines 274-284): the bubble update.  Returns the mood
after any pop boost and fixed bonus, the new bubbleScale, the burst hearts
spawned, and the list of mood assignments performed. -/
def bubblePhase (s : ScnState) : ℚ × ℚ × ℕ × List ℚ :=
  if s.isBubbleInflating then
    (s.kissMeterLevel, min 100 (s.bubbleScale + 4/5), 0, [])
  else if 0 < s.bubbleScale then
    if 10 < s.bubbleScale then
      let p := popBubble s.kissMeterLevel s.bubbleScale
      let kissB := min 100 (p.1 + 5)
      (kissB, 0, p.2, [p.1, kissB])
    else
      (s.kissMeterLevel, 0, 0, [])
  else
    (s.kissMeterLevel, s.bubbleScale, 0, [])

/-- One pass of gameLoop (src/script.js lines 266-306) in source order:
color observation, bubble update, decay, bloom check. -/
def gameLoop (s : ScnState) : ScnState × TickObs :=
  let bub := bubblePhase s
  let kiss1 := bub.1
  let scale1 := bub.2.1
  let pops := bub.2.2.1
  let popWrites := bub.2.2.2
  let kiss2 := max 0 (kiss1 - 1/20)
  let fired := decide (100 ≤ kiss2)
  let kiss3 := if 100 ≤ kiss2 then (99 : ℚ) else kiss2
  ({ kissMeterLevel := kiss3, bubbleScale := scale1, isBubbleInflating := s.isBubbleInflating },
   { colorLevel := s.kissMeterLevel, popParticles := pops,
     popDelta := kiss1 - s.kissMeterLevel, bloomCheckLevel := kiss2, bloomFired := fired,
     moodWrites := popWrites ++ [kiss2] ++ (if fired then [(99 : ℚ)] else []) })

/-- Hold handler (line 418): sets the inflation flag. -/
def startInflating (s : ScnState) : ScnState := { s with isBubbleInflating := true }

/-- Release handler (line 419): clears the inflation flag. -/
def stopInflating (s : ScnState) : ScnState := { s with isBubbleInflating := false }

/-- The three ways the engine state can be mutated: a gameLoop pass, or one of
the two hold-gesture event handlers. -/
inductive Ev where
  | loop
  | holdStart
  | holdEnd
  deriving DecidableEq

def stepEv (s : ScnState) (e : Ev) : ScnState :=
  match e with
  | Ev.loop => (gameLoop s).1
  | Ev.holdStart => startInflating s
  | Ev.holdEnd => stopInflating s

/-- The engine state after an arbitrary interleaving of gameLoop passes and
hold events, starting from the initial module state. -/
def run (evs : List Ev) : ScnState := evs.foldl stepEv initState

/-- State invariant of the engine: the mood is in [0, 99.95] (the decay of
0.05 runs after every clamped write, so the stored value stays strictly below
100) and the bubble scale is in [0, 100]. -/
def ScnInv (s : ScnState) : Prop :=
  0 ≤ s.kissMeterLevel ∧ s.kissMeterLevel ≤ 1999/20 ∧
    0 ≤ s.bubbleScale ∧ s.bubbleScale ≤ 100

/-- Cooldown of the bloom effect: the scene-bloom class is removed 2000 ms
after it is added (src/script.js lines 325-328). -/
def bloomCooldownDuration : ℚ := 2000

/-- Whether the scene-bloom class is present at the given time: the bloom
state is the pending removal time of the class (none when the class is
absent). -/
def sceneBloomActive (expiry : Option ℚ) (now : ℚ) : Bool :=
  match expiry with
  | none => false
  | some e => decide (now < e)

/-- triggerPurpleBloom (src/script.js lines 311-329): a call while the
scene-bloom class is present returns immediately with no burst; otherwise it
adds the class, spawns a burst of 50 purple hearts, and schedules removal of
the class 2000 ms later.  Returns the new bloom state and the burst size. -/
def triggerPurpleBloom (expiry : Option ℚ) (now : ℚ) : Option ℚ × ℕ :=
  if sceneBloomActive expiry now then (expiry, 0)
  else (some (now + bloomCooldownDuration), 50)

/-- Repeated invocations of triggerPurpleBloom at the given times, returning
the final bloom state and how many of the calls actually fired a bloom. -/
def triggerRun : Option ℚ → List ℚ → Option ℚ × ℕ
  | b, [] => (b, 0)
  | b, t :: ts =>
    let r := triggerPurpleBloom b t
    let rest := triggerRun r.1 ts
    (rest.1, (if 0 < r.2 then 1 else 0) + rest.2)


/-- Engine state after holding the bubble for t gameLoop passes: start the
hold from an idle state at mood k0 and run t passes with the flag set. -/
def holdFrom (k0 : ℚ) (t : ℕ) : ScnState :=
  (fun s => (gameLoop s).1)^[t] (startInflating ⟨k0, 0, false⟩)

/-- Observations of the release pass: the hold ends and the next gameLoop
pass processes the accumulated bubble scale. -/
def releaseObs (k0 : ℚ) (t : ℕ) : TickObs :=
  (gameLoop (stopInflating (holdFrom k0 t))).2

/-- Burst size produced by releasing after t inflation passes. -/
def burstSizeOf (k0 : ℚ) (t : ℕ) : ℕ := (releaseObs k0 t).popParticles

/-- Mood increment produced by releasing after t inflation passes (the pop
boost plus the fixed bonus, both clamped, excluding the decay step). -/
def moodDeltaOf (k0 : ℚ) (t : ℕ) : ℚ := (releaseObs k0 t).popDelta

/-- Mood remaining after t inflation passes of pure decay. -/
def heldKiss (k0 : ℚ) (t : ℕ) : ℚ := max 0 (k0 - (t : ℚ) * (1/20))

/-- Bubble scale accumulated over t inflation passes. -/
def heldScale (t : ℕ) : ℚ := min 100 ((t : ℚ) * (4/5))


lemma min100_le_self (y : ℚ) : min 100 y ≤ y := min_le_right _ _

lemma min100_nonneg {x : ℚ} (hx : 0 ≤ x) : 0 ≤ min 100 x := le_min (by norm_num) hx

lemma min100_le_100 (x : ℚ) : min 100 x ≤ 100 := min_le_left _ _

lemma min100_mono {x y : ℚ} (h : x ≤ y) : min 100 x ≤ min 100 y := min_le_min le_rfl h

lemma min100_shift {y c : ℚ} (hc : 0 ≤ c) : min 100 (y + c) ≤ min 100 y + c := by
  rcases le_total 100 y with h | h
  · rw [min_eq_left h, min_eq_left (by linarith)]
    linarith
  · rw [min_eq_right h]
    exact min_le_right _ _

lemma min100_squash {y b : ℚ} (hb : 0 ≤ b) : min 100 (min 100 y + b) = min 100 (y + b) := by
  rcases le_total 100 y with h | h
  · rw [min_eq_left h, min_eq_left (by linarith), min_eq_left (by linarith)]
  · rw [min_eq_right h]

lemma max0_squash {y b : ℚ} (hb : 0 ≤ b) : max 0 (max 0 y - b) = max 0 (y - b) := by
  rcases le_total y 0 with h | h
  · rw [max_eq_left h, max_eq_left (by linarith), max_eq_left (by linarith)]
  · rw [max_eq_right h]

lemma bubblePhase_kiss_le (s : ScnState) (h : s.kissMeterLevel ≤ 100) :
    (bubblePhase s).1 ≤ 100 := by
  simp only [bubblePhase, popBubble]
  split_ifs <;> simp [h, min100_le_100]

lemma bubblePhase_kiss_nonneg (s : ScnState) (hk : 0 ≤ s.kissMeterLevel) :
    0 ≤ (bubblePhase s).1 := by
  simp only [bubblePhase, popBubble]
  split_ifs with h1 h2 h3
  · exact hk
  · have hp : 0 ≤ min 100 (s.kissMeterLevel + s.bubbleScale / 10) :=
      min100_nonneg (by linarith)
    exact min100_nonneg (by linarith)
  · exact hk
  · exact hk

lemma bubblePhase_scale (s : ScnState) (h0 : 0 ≤ s.bubbleScale) (h1 : s.bubbleScale ≤ 100) :
    0 ≤ (bubblePhase s).2.1 ∧ (bubblePhase s).2.1 ≤ 100 := by
  simp only [bubblePhase, popBubble]
  split_ifs with ha hb hc
  · exact ⟨min100_nonneg (by linarith), min100_le_100 _⟩
  · exact ⟨le_rfl, by norm_num⟩
  · exact ⟨le_rfl, by norm_num⟩
  · exact ⟨h0, h1⟩

lemma bubblePhase_writes (s : ScnState) (hk : 0 ≤ s.kissMeterLevel) :
    ∀ m ∈ (bubblePhase s).2.2.2, 0 ≤ m ∧ m ≤ 100 := by
  simp only [bubblePhase, popBubble]
  split_ifs with h1 h2 h3
  · simp
  · intro m hm
    have hp : 0 ≤ min 100 (s.kissMeterLevel + s.bubbleScale / 10) :=
      min100_nonneg (by linarith)
    simp only [List.mem_cons, List.mem_singleton, List.not_mem_nil, or_false] at hm
    rcases hm with hm | hm
    · exact hm ▸ ⟨hp, min100_le_100 _⟩
    · exact hm ▸ ⟨min100_nonneg (by linarith), min100_le_100 _⟩
  · simp
  · simp

lemma gameLoop_state_eq (s : ScnState) :
    (gameLoop s).1.kissMeterLevel =
      (if 100 ≤ max 0 ((bubblePhase s).1 - 1/20) then (99 : ℚ)
       else max 0 ((bubblePhase s).1 - 1/20)) ∧
    (gameLoop s).1.bubbleScale = (bubblePhase s).2.1 ∧
    (gameLoop s).1.isBubbleInflating = s.isBubbleInflating := by
  simp [gameLoop]

lemma gameLoop_check_lt (s : ScnState) (h : s.kissMeterLevel ≤ 100) :
    max 0 ((bubblePhase s).1 - 1/20) ≤ 1999/20 := by
  have := bubblePhase_kiss_le s h
  have : (bubblePhase s).1 - 1/20 ≤ 1999/20 := by linarith
  exact max_le (by norm_num) this

lemma gameLoop_inv (s : ScnState) (h : ScnInv s) : ScnInv (gameLoop s).1 := by
  obtain ⟨hk0, hk1, hs0, hs1⟩ := h
  obtain ⟨he1, he2, he3⟩ := gameLoop_state_eq s
  obtain ⟨hb0, hb1⟩ := bubblePhase_scale s hs0 hs1
  have hchk := gameLoop_check_lt s (by linarith)
  refine ⟨?_, ?_, ?_, ?_⟩
  · rw [he1]; split_ifs with hf
    · norm_num
    · exact le_max_left _ _
  · rw [he1]; split_ifs with hf
    · norm_num
    · exact hchk
  · rw [he2]; exact hb0
  · rw [he2]; exact hb1

lemma stepEv_inv (s : ScnState) (e : Ev) (h : ScnInv s) : ScnInv (stepEv s e) := by
  cases e with
  | loop => exact gameLoop_inv s h
  | holdStart => exact h
  | holdEnd => exact h

lemma initState_inv : ScnInv initState := by
  simp only [ScnInv, initState]
  norm_num

lemma foldl_inv (evs : List Ev) : ∀ s, ScnInv s → ScnInv (evs.foldl stepEv s) := by
  induction evs with
  | nil => intro s h; exact h
  | cons e es ih => intro s h; exact ih _ (stepEv_inv s e h)

lemma run_inv (evs : List Ev) : ScnInv (run evs) :=
  foldl_inv evs initState initState_inv

lemma gameLoop_writes (s : ScnState) (hk0 : 0 ≤ s.kissMeterLevel)
    (hk1 : s.kissMeterLevel ≤ 100) :
    ∀ m ∈ (gameLoop s).2.moodWrites, 0 ≤ m ∧ m ≤ 100 := by
  have hpop := bubblePhase_writes s hk0
  have hchk := gameLoop_check_lt s hk1
  have hchk0 : (0:ℚ) ≤ max 0 ((bubblePhase s).1 - 1/20) := le_max_left _ _
  intro m hm
  simp only [gameLoop, List.append_assoc, List.mem_append, List.mem_singleton] at hm
  rcases hm with hm | hm | hm
  · exact hpop m hm
  · exact hm ▸ ⟨hchk0, by linarith⟩
  · rcases (by split_ifs at hm <;> simp_all : m = 99) with rfl
    norm_num

/-- C1: starting from the initial state (mood 0), after every interleaving of
gameLoop passes and hold events the mood scalar kissMeterLevel lies in
[0, 100], and so does every value assigned to kissMeterLevel during the next
gameLoop pass (pop boost, fixed pop bonus, decay result, bloom correction):
the mood is in range at every observation point. -/
theorem C1_mood_always_in_range (evs : List Ev) :
    (0 ≤ (run evs).kissMeterLevel ∧ (run evs).kissMeterLevel ≤ 100) ∧
    ∀ m ∈ (gameLoop (run evs)).2.moodWrites, 0 ≤ m ∧ m ≤ 100 := by
  obtain ⟨h0, h1, h2, h3⟩ := run_inv evs
  exact ⟨⟨h0, by linarith⟩, gameLoop_writes (run evs) h0 (by linarith)⟩

/-- Witness for C1: in the empty run, the decay result 0 written during the
following gameLoop pass is in range. -/
theorem C1_mood_always_in_range_witness : 0 ≤ (0:ℚ) ∧ (0:ℚ) ≤ 100 :=
  (C1_mood_always_in_range []).2 0 (by norm_num [run, gameLoop, bubblePhase, initState])

/-- C2: the bloom check of step 4 of gameLoop can never pass.  Every write to
kissMeterLevel is clamped to at most 100 and the decay of step 3 subtracts
0.05 before the check, so from every state with mood at most 100 the compared
value is at most 99.95: bloomFired is false and triggerPurpleBloom is
unreachable from the loop, contradicting the claim that reaching the ceiling
makes the next pass fire the bloom. -/
theorem C2_bloom_check_never_passes (s : ScnState) (h : s.kissMeterLevel ≤ 100) :
    (gameLoop s).2.bloomCheckLevel < 100 ∧ (gameLoop s).2.bloomFired = false := by
  have hchk := gameLoop_check_lt s h
  have hlt : max 0 ((bubblePhase s).1 - 1/20) < 100 := by linarith
  constructor
  · simpa [gameLoop] using hlt
  · simp only [gameLoop]
    simpa using not_le_of_lt hlt

/-- Witness for C2, at the claim's own scenario: mood 98.95 with a bubble of
scale 20.5 released.  The pop clamps the mood to exactly 100 mid-pass (100 is
among the mood writes), yet the bloom check still reads 99.95 and fails. -/
theorem C2_bloom_check_never_passes_witness :
    ((100:ℚ) ∈ (gameLoop ⟨1979/20, 41/2, false⟩).2.moodWrites ∧
      (gameLoop ⟨1979/20, 41/2, false⟩).2.bloomCheckLevel = 1999/20) ∧
    (gameLoop ⟨1979/20, 41/2, false⟩).2.bloomCheckLevel < 100 ∧
    (gameLoop ⟨1979/20, 41/2, false⟩).2.bloomFired = false := by
  refine ⟨⟨?_, ?_⟩, C2_bloom_check_never_passes ⟨1979/20, 41/2, false⟩ (by norm_num)⟩
  · norm_num [gameLoop, bubblePhase, popBubble, min_def, max_def]
  · norm_num [gameLoop, bubblePhase, popBubble, min_def, max_def]

/-- Counterexample to C4: the pass entered at mood 50 with a released bubble
of scale 20 hands updateSceneColors the entry value 50, while the mood at the
end of the same pass (after pop, bonus and decay) is 56.95: within a single
pass the color recompute does not observe the post-bloom-check mood value, so
the claimed order decay, deltas, bloom check, color recompute is not the
code's order. -/
theorem C4_order_counterexample :
    (gameLoop ⟨50, 20, false⟩).2.colorLevel = 50 ∧
    (gameLoop ⟨50, 20, false⟩).1.kissMeterLevel = 1139/20 ∧
    (gameLoop ⟨50, 20, false⟩).2.colorLevel ≠ (gameLoop ⟨50, 20, false⟩).1.kissMeterLevel := by
  refine ⟨by norm_num [gameLoop], ?_, ?_⟩
  · norm_num [gameLoop, bubblePhase, popBubble, min_def, max_def]
  · norm_num [gameLoop, bubblePhase, popBubble, min_def, max_def]

/-- C4 as amended: within one pass the fixed order is color recompute first
(observing the mood value left by the end of the previous pass, always in
[0, 100) and never a raw value at or above 100), then interaction deltas,
then decay, then the bloom check: the check compares exactly the post-delta,
post-decay value max 0 (colorLevel + popDelta - 0.05). -/
theorem C4_order_amended (evs : List Ev) :
    (gameLoop (run evs)).2.colorLevel = (run evs).kissMeterLevel ∧
    (0 ≤ (gameLoop (run evs)).2.colorLevel ∧ (gameLoop (run evs)).2.colorLevel < 100) ∧
    (gameLoop (run evs)).2.bloomCheckLevel =
      max 0 (((gameLoop (run evs)).2.colorLevel + (gameLoop (run evs)).2.popDelta) - 1/20) := by
  obtain ⟨h0, h1, h2, h3⟩ := run_inv evs
  refine ⟨by simp [gameLoop], ⟨by simpa [gameLoop] using h0, by simp [gameLoop]; linarith⟩, ?_⟩
  simp [gameLoop]

/-- Counterexample to C5: the mood-to-color mapping jumps at both band
boundaries.  The moods 30 and 30.5 are within 1 unit of each other yet get
entirely different theme colors (Blue vs Red), and likewise 65 and 65.5
(Red vs Purple): the mapping is not continuous. -/
theorem C5_color_jump_counterexample :
    (|(30:ℚ) - 61/2| ≤ 1 ∧ getCurrentMood 30 ≠ getCurrentMood (61/2)) ∧
    (|(65:ℚ) - 131/2| ≤ 1 ∧ getCurrentMood 65 ≠ getCurrentMood (131/2)) := by
  constructor
  · refine ⟨by norm_num [abs_le], fun h => ?_⟩
    have : (getCurrentMood 30).name = (getCurrentMood (61/2)).name := congrArg MoodColor.name h
    rw [show getCurrentMood 30 = moodBlue by norm_num [getCurrentMood],
        show getCurrentMood (61/2) = moodRed by norm_num [getCurrentMood]] at this
    exact absurd this (by decide)
  · refine ⟨by norm_num [abs_le], fun h => ?_⟩
    have : (getCurrentMood 65).name = (getCurrentMood (131/2)).name := congrArg MoodColor.name h
    rw [show getCurrentMood 65 = moodRed by norm_num [getCurrentMood],
        show getCurrentMood (131/2) = moodPurple by norm_num [getCurrentMood]] at this
    exact absurd this (by decide)

/-- C5 as amended: the mood-to-color mapping is a step function, constant on
each of the three bands (at most 30, above 30 and at most 65, above 65);
any two moods in the same band get identical theme colors, while the
counterexample shows discontinuous jumps at the boundaries 30 and 65. -/
theorem C5_color_piecewise_constant (m1 m2 : ℚ)
    (hb : (m1 ≤ 30 ∧ m2 ≤ 30) ∨ (30 < m1 ∧ m1 ≤ 65 ∧ 30 < m2 ∧ m2 ≤ 65) ∨
      (65 < m1 ∧ 65 < m2)) :
    getCurrentMood m1 = getCurrentMood m2 := by
  rcases hb with ⟨h1, h2⟩ | ⟨h1, h2, h3, h4⟩ | ⟨h1, h2⟩ <;>
    simp only [getCurrentMood] <;> split_ifs <;> first | rfl | linarith

/-- Witness for C5 as amended: moods 10 and 20 lie in the same band and get
the same colors. -/
theorem C5_color_piecewise_constant_witness : getCurrentMood 10 = getCurrentMood 20 :=
  C5_color_piecewise_constant 10 20 (Or.inl ⟨by norm_num, by norm_num⟩)

/-- C6: a boundary mood belongs to the lower band.  Mood 30 maps to the Blue
band, every mood strictly above 30 and at most 65 maps to the Red band, mood
65 itself maps to Red, and every mood above 65 maps to the Purple band. -/
theorem C6_boundary_belongs_to_lower_band (m : ℚ) :
    getCurrentMood 30 = moodBlue ∧
    (30 < m → m ≤ 65 → getCurrentMood m = moodRed) ∧
    getCurrentMood 65 = moodRed ∧
    (65 < m → getCurrentMood m = moodPurple) := by
  refine ⟨by norm_num [getCurrentMood], fun h1 h2 => ?_, by norm_num [getCurrentMood], fun h => ?_⟩
  · simp only [getCurrentMood]
    rw [if_neg (by linarith), if_pos h2]
  · simp only [getCurrentMood]
    rw [if_neg (by linarith), if_neg (by linarith)]

/-- Witness for C6: mood 30 is Blue, mood 30.0001 is Red, mood 65 is Red,
mood 66 is Purple. -/
theorem C6_boundary_belongs_to_lower_band_witness :
    getCurrentMood 30 = moodBlue ∧ getCurrentMood (300001/10000) = moodRed ∧
    getCurrentMood 65 = moodRed ∧ getCurrentMood 66 = moodPurple :=
  ⟨(C6_boundary_belongs_to_lower_band 0).1,
   (C6_boundary_belongs_to_lower_band (300001/10000)).2.1 (by norm_num) (by norm_num),
   (C6_boundary_belongs_to_lower_band 0).2.2.1,
   (C6_boundary_belongs_to_lower_band 66).2.2.2 (by norm_num)⟩

lemma triggerRun_cooldown (ts : List ℚ) (e : ℚ) (h : ∀ t ∈ ts, t < e) :
    triggerRun (some e) ts = (some e, 0) := by
  induction ts with
  | nil => rfl
  | cons t ts ih =>
    have ht : t < e := h t (List.mem_cons_self t ts)
    have hact : sceneBloomActive (some e) t = true := by
      simp [sceneBloomActive, ht]
    simp only [triggerRun, triggerPurpleBloom, hact, if_true]
    rw [ih fun u hu => h u (List.mem_cons_of_mem t hu)]
    norm_num

/-- C3: the bloom is strictly one-shot per cooldown window.  Starting with no
active cooldown, an invocation of triggerPurpleBloom at time t0 fires; over
any further invocations during the cooldown window [t0, t0 + 2000) — one per
pass, however many passes see saturated mood — exactly one bloom total fires,
the cooldown having cleared, an invocation at any time from t0 + 2000 on
fires a bloom (with its 50-heart burst) again. -/
theorem C3_bloom_one_shot_per_cooldown (t0 tLater : ℚ) (ts : List ℚ)
    (hts : ∀ t ∈ ts, t0 ≤ t ∧ t < t0 + bloomCooldownDuration)
    (hLater : t0 + bloomCooldownDuration ≤ tLater) :
    (triggerRun none (t0 :: ts)).2 = 1 ∧
    (triggerPurpleBloom (triggerRun none (t0 :: ts)).1 tLater).2 = 50 := by
  have hfire : triggerPurpleBloom none t0 = (some (t0 + bloomCooldownDuration), 50) := by
    simp [triggerPurpleBloom, sceneBloomActive]
  have hrest := triggerRun_cooldown ts (t0 + bloomCooldownDuration) fun t ht => (hts t ht).2
  have hrun : triggerRun none (t0 :: ts) = (some (t0 + bloomCooldownDuration), 1) := by
    simp only [triggerRun, hfire, hrest]
    norm_num
  rw [hrun]
  refine ⟨rfl, ?_⟩
  have hact : sceneBloomActive (some (t0 + bloomCooldownDuration)) tLater = false := by
    simp [sceneBloomActive, not_lt.mpr hLater]
  simp [triggerPurpleBloom, hact]

/-- Witness for C3: first trigger at time 0 and re-triggers at times 500 and
1999 yield a single bloom; a trigger at time 2000 fires again. -/
theorem C3_bloom_one_shot_per_cooldown_witness :
    (triggerRun none (0 :: [500, 1999])).2 = 1 ∧
    (triggerPurpleBloom (triggerRun none (0 :: [500, 1999])).1 2000).2 = 50 :=
  C3_bloom_one_shot_per_cooldown 0 2000 [500, 1999]
    (by intro t ht; simp only [List.mem_cons, List.mem_singleton] at ht
        rcases ht with rfl | rfl | h
        · norm_num [bloomCooldownDuration]
        · norm_num [bloomCooldownDuration]
        · simp at h)
    (by norm_num [bloomCooldownDuration])

lemma popSpawn_mono {a b : ℚ} (h : a ≤ b) : popSpawn a ≤ popSpawn b :=
  Int.toNat_le_toNat (Int.floor_le_floor (by linarith))

lemma popSpawn_100 : popSpawn 100 = 20 := by
  have h : ⌊(100:ℚ)/5⌋ = 20 := by norm_num
  simp [popSpawn, h]

/-- Counterexample to C7: popBubble applies no internal clamp to its derived
particle count.  A pop of size 1000 spawns 200 burst hearts — more than the
documented example maximum of 120 — and a pop of size 5000 spawns more still,
so no configured maximum bounds the count. -/
theorem C7_burst_unclamped_counterexample :
    (popBubble 0 1000).2 = 200 ∧ 120 < (popBubble 0 1000).2 ∧
    (popBubble 0 1000).2 < (popBubble 0 5000).2 := by
  have h1 : ⌊(1000:ℚ)/5⌋ = 200 := by norm_num
  have h2 : ⌊(5000:ℚ)/5⌋ = 1000 := by norm_num
  refine ⟨?_, ?_, ?_⟩ <;> simp [popBubble, popSpawn, h1, h2]

/-- C7 as amended: popBubble spawns floor(size/5) hearts with no internal
clamp; inside the engine the count is nevertheless bounded, at 20 per pop,
only because the inflation update keeps bubbleScale at most 100, and the
bloom burst is the fixed constant 50. -/
theorem C7_burst_bounded_amended (evs : List Ev) :
    (gameLoop (run evs)).2.popParticles ≤ 20 ∧ (triggerPurpleBloom none 0).2 = 50 := by
  obtain ⟨h0, h1, h2, h3⟩ := run_inv evs
  constructor
  · have hb : (bubblePhase (run evs)).2.2.1 ≤ 20 := by
      simp only [bubblePhase, popBubble]
      split_ifs <;> simp [popSpawn_100 ▸ popSpawn_mono h3]
    simpa [gameLoop] using hb
  · simp [triggerPurpleBloom, sceneBloomActive]

/-- C9: the hold-gesture handlers are idempotent.  startInflating while
already inflating is a no-op, stopInflating while already idle is a no-op,
and the bubble-scale sequence over any number of subsequent gameLoop passes
after a duplicated startInflating is identical to the sequence after a
single one. -/
theorem C9_hold_gestures_idempotent (s : ScnState) (t : ℕ) :
    startInflating (startInflating s) = startInflating s ∧
    stopInflating (stopInflating s) = stopInflating s ∧
    ((fun st => (gameLoop st).1)^[t] (startInflating (startInflating s))).bubbleScale =
      ((fun st => (gameLoop st).1)^[t] (startInflating s)).bubbleScale :=
  ⟨rfl, rfl, rfl⟩

/-- C10: releasing a hold with 0 < bubbleScale <= 10 makes the next gameLoop
pass silently reset the bubble: the scale becomes 0, no burst hearts are
spawned, the pop mood increment is 0, no bloom fires, and the mood changes by
exactly the decay step, ending at max 0 (mood - 0.05). -/
theorem C10_short_hold_silent_reset (s : ScnState) (h0 : 0 < s.bubbleScale)
    (h10 : s.bubbleScale ≤ 10) (hInf : s.isBubbleInflating = false)
    (hk : s.kissMeterLevel ≤ 100) :
    (gameLoop s).1.bubbleScale = 0 ∧
    (gameLoop s).2.popParticles = 0 ∧
    (gameLoop s).2.popDelta = 0 ∧
    (gameLoop s).2.bloomFired = false ∧
    (gameLoop s).1.kissMeterLevel = max 0 (s.kissMeterLevel - 1/20) := by
  have hb : bubblePhase s = (s.kissMeterLevel, 0, 0, []) := by
    simp [bubblePhase, hInf, h0, not_lt.mpr h10]
  have hchk : max 0 (s.kissMeterLevel - 1/20) < 100 :=
    max_lt (by norm_num) (by linarith)
  have hnot : ¬ (100 ≤ max 0 (s.kissMeterLevel - 1/20)) := not_le.mpr hchk
  refine ⟨?_, ?_, ?_, ?_, ?_⟩ <;> simp [gameLoop, hb, hnot]
  · linarith
  · intro h
    rcases h with h | h <;> linarith

/-- Witness for C10: from mood 20 with a released bubble of scale 8, the next
pass resets the scale, spawns nothing, adds no reward, and only decays the
mood. -/
theorem C10_short_hold_silent_reset_witness :
    (gameLoop ⟨20, 8, false⟩).1.bubbleScale = 0 ∧
    (gameLoop ⟨20, 8, false⟩).2.popParticles = 0 ∧
    (gameLoop ⟨20, 8, false⟩).2.popDelta = 0 ∧
    (gameLoop ⟨20, 8, false⟩).2.bloomFired = false ∧
    (gameLoop ⟨20, 8, false⟩).1.kissMeterLevel = max 0 (20 - 1/20) :=
  C10_short_hold_silent_reset ⟨20, 8, false⟩ (by norm_num) (by norm_num) rfl (by norm_num)

lemma gameLoop_inflating (K S : ℚ) (hK : K ≤ 100) :
    (gameLoop ⟨K, S, true⟩).1 = ⟨max 0 (K - 1/20), min 100 (S + 4/5), true⟩ := by
  have hlt : max 0 (K - 1/20) < 100 := max_lt (by norm_num) (by linarith)
  simp only [gameLoop, bubblePhase, if_true]
  rw [if_neg (not_le.mpr hlt)]

lemma holdFrom_closed (k0 : ℚ) (hk0 : 0 ≤ k0) (hk1 : k0 ≤ 100) (t : ℕ) :
    holdFrom k0 t = ⟨heldKiss k0 t, heldScale t, true⟩ := by
  induction t with
  | zero =>
    simp only [holdFrom, Function.iterate_zero, id_eq, startInflating, heldKiss, heldScale]
    simp [max_eq_right hk0]
  | succ t ih =>
    have hstep : holdFrom k0 (t + 1) = (gameLoop (holdFrom k0 t)).1 := by
      simp only [holdFrom]
      rw [Function.iterate_succ_apply']
    have hK100 : heldKiss k0 t ≤ 100 := by
      refine max_le (by norm_num) ?_
      have : (0:ℚ) ≤ (t : ℚ) * (1/20) := by positivity
      linarith
    have hkiss : max 0 (heldKiss k0 t - 1/20) = heldKiss k0 (t + 1) := by
      rw [heldKiss, heldKiss, max0_squash (by norm_num : (0:ℚ) ≤ 1/20)]
      congr 1
      push_cast
      ring
    have hscale : min 100 (heldScale t + 4/5) = heldScale (t + 1) := by
      rw [heldScale, heldScale, min100_squash (by norm_num : (0:ℚ) ≤ 4/5)]
      congr 1
      push_cast
      ring
    rw [hstep, ih, gameLoop_inflating _ _ hK100, hkiss, hscale]

lemma releaseObs_pop (k0 : ℚ) (hk0 : 0 ≤ k0) (hk1 : k0 ≤ 100) (t : ℕ) :
    (releaseObs k0 t).popParticles =
      (if 10 < heldScale t then popSpawn (heldScale t) else 0) ∧
    (releaseObs k0 t).popDelta =
      (if 10 < heldScale t then
        min 100 (min 100 (heldKiss k0 t + heldScale t / 10) + 5) - heldKiss k0 t
       else 0) := by
  have hrel : stopInflating (holdFrom k0 t) = ⟨heldKiss k0 t, heldScale t, false⟩ := by
    rw [holdFrom_closed k0 hk0 hk1 t]
    rfl
  by_cases h10 : 10 < heldScale t
  · have h0 : (0:ℚ) < heldScale t := lt_trans (by norm_num) h10
    constructor <;>
      simp [releaseObs, hrel, gameLoop, bubblePhase, popBubble, h10, h0]
  · by_cases h0 : (0:ℚ) < heldScale t
    · constructor <;> simp [releaseObs, hrel, gameLoop, bubblePhase, h10, h0]
    · constructor <;> simp [releaseObs, hrel, gameLoop, bubblePhase, h10, h0]

lemma heldScale_mono {t1 t2 : ℕ} (h : t1 ≤ t2) : heldScale t1 ≤ heldScale t2 :=
  min100_mono (mul_le_mul_of_nonneg_right (Nat.cast_le.mpr h) (by norm_num))

lemma heldKiss_anti (k0 : ℚ) {t1 t2 : ℕ} (h : t1 ≤ t2) : heldKiss k0 t2 ≤ heldKiss k0 t1 := by
  refine max_le_max le_rfl ?_
  have : (t1 : ℚ) ≤ (t2 : ℚ) := Nat.cast_le.mpr h
  linarith

lemma heldKiss_nonneg (k0 : ℚ) (t : ℕ) : 0 ≤ heldKiss k0 t := le_max_left _ _

lemma heldKiss_le_100 (k0 : ℚ) (hk1 : k0 ≤ 100) (t : ℕ) : heldKiss k0 t ≤ 100 := by
  refine max_le (by norm_num) ?_
  have : (0:ℚ) ≤ (t : ℚ) * (1/20) := by positivity
  linarith

lemma popDelta_mono {K Kp S Sp : ℚ} (hKp : Kp ≤ K) (hS : S ≤ Sp) :
    min 100 (min 100 (K + S / 10) + 5) - K ≤
      min 100 (min 100 (Kp + Sp / 10) + 5) - Kp := by
  have hc0 : (0:ℚ) ≤ K - Kp := by linarith
  have h5 : min 100 (min 100 (K + S/10) + 5) ≤ min 100 (min 100 (K + Sp/10) + 5) :=
    min100_mono (by have := min100_mono (show K + S/10 ≤ K + Sp/10 by linarith); linarith)
  have h2 : min 100 (K + Sp/10) ≤ min 100 (Kp + Sp/10) + (K - Kp) := by
    have hs := min100_shift (y := Kp + Sp/10) hc0
    have he : K + Sp/10 = Kp + Sp/10 + (K - Kp) := by ring
    rw [he]
    exact hs
  have h3 : min 100 (min 100 (K + Sp/10) + 5) ≤
      min 100 ((min 100 (Kp + Sp/10) + 5) + (K - Kp)) :=
    min100_mono (by linarith)
  have h4 : min 100 ((min 100 (Kp + Sp/10) + 5) + (K - Kp)) ≤
      min 100 (min 100 (Kp + Sp/10) + 5) + (K - Kp) :=
    min100_shift hc0
  linarith

lemma popDelta_nonneg {K S : ℚ} (hK100 : K ≤ 100) (hS : 0 ≤ S) :
    0 ≤ min 100 (min 100 (K + S / 10) + 5) - K := by
  have h1 : min 100 K ≤ min 100 (K + S/10) := min100_mono (by linarith)
  have h2 : K = min 100 K := (min_eq_right hK100).symm
  have h3 : min 100 (K + S/10) ≤ 100 := min100_le_100 _
  have h4 : min 100 (min 100 (K + S/10)) ≤ min 100 (min 100 (K + S/10) + 5) :=
    min100_mono (by linarith)
  have h5 : min 100 (min 100 (K + S/10)) = min 100 (K + S/10) := min_eq_right h3
  linarith

/-- C8: the bubble reward is monotone in hold duration.  For hold durations
t1 <= t2 in inflation passes from the same start state (idle, mood k0 in
[0, 100]), the release burst size and the release mood increment satisfy
burstSizeOf t1 <= burstSizeOf t2 and moodDeltaOf t1 <= moodDeltaOf t2. -/
theorem C8_reward_monotone (k0 : ℚ) (t1 t2 : ℕ) (hk0 : 0 ≤ k0) (hk1 : k0 ≤ 100)
    (ht : t1 ≤ t2) :
    burstSizeOf k0 t1 ≤ burstSizeOf k0 t2 ∧ moodDeltaOf k0 t1 ≤ moodDeltaOf k0 t2 := by
  obtain ⟨hb1, hd1⟩ := releaseObs_pop k0 hk0 hk1 t1
  obtain ⟨hb2, hd2⟩ := releaseObs_pop k0 hk0 hk1 t2
  have hSm := heldScale_mono ht
  constructor
  · rw [burstSizeOf, burstSizeOf, hb1, hb2]
    by_cases h1 : 10 < heldScale t1
    · rw [if_pos h1, if_pos (lt_of_lt_of_le h1 hSm)]
      exact popSpawn_mono hSm
    · rw [if_neg h1]
      exact Nat.zero_le _
  · rw [moodDeltaOf, moodDeltaOf, hd1, hd2]
    have hS0 : (0:ℚ) ≤ heldScale t2 := le_min (by norm_num) (by positivity)
    have hK2 : heldKiss k0 t2 ≤ 100 := heldKiss_le_100 k0 hk1 t2
    by_cases h1 : 10 < heldScale t1
    · rw [if_pos h1, if_pos (lt_of_lt_of_le h1 hSm)]
      exact popDelta_mono (heldKiss_anti k0 ht) hSm
    · rw [if_neg h1]
      by_cases h2 : 10 < heldScale t2
      · rw [if_pos h2]
        exact popDelta_nonneg hK2 hS0
      · rw [if_neg h2]

/-- Witness for C8: from mood 50, holding for 13 passes then releasing yields
no larger a burst and no larger a mood increment than holding for 20. -/
theorem C8_reward_monotone_witness :
    burstSizeOf 50 13 ≤ burstSizeOf 50 20 ∧ moodDeltaOf 50 13 ≤ moodDeltaOf 50 20 :=
  C8_reward_monotone 50 13 20 (by norm_num) (by norm_num) (by norm_num)
